import Mathlib

/-!
# DatabaseFlow: registry, guarded connection singleton and transaction wrapper

A shallow embedding of `modelRegistration.go`, `databaseHelper/databaseHelper.go`
and `databaseHelper/transactionHelper.go`.

* The package-level variables (`models`, `modelsSet`, `modelsOnce`, `db`, `once`)
  are the fields of `State`; every Go function is a function on `State`.
  `databaseHelper.go` reads `modelsSet` and `models`, which `modelRegistration.go`
  declares: they are one pair of variables here.
* The persistence driver (gorm), the process environment and the unit of work are
  external; they are parameters (`Driver`, `txFunc`) acting on an abstract world `W`.
* Every call the code issues to a collaborator (tracer, logger, gorm) is appended
  to `State.trace`, in program order, with the values it was given and returned.
* `logger.Fatal` ends the process: the call has outcome `Outcome.fatal`.  A nil
  pointer dereference has outcome `Outcome.panic`.
* `sync.Once` is run sequentially: `Do f` runs `f` when the done flag is unset and
  sets the flag when `f` has returned.
-/

namespace DatabaseFlow

/-! ## Definitions

The embedding of the three source files comes first, then the observations on
traces used to state the properties, then concrete drivers and states. -/

/-! ### Errors and data model -/

/-- Go `error` values that the code produces or passes on. -/
inductive GoError where
  /-- Leaf error of a collaborator, with its text. -/
  | new (msg : String)
  /-- The `*strconv.NumError` of `strconv.Atoi` / `strconv.ParseBool`:
  function name, offending input, and whether it is `ErrRange` (else `ErrSyntax`). -/
  | numError (fn : String) (num : String) (range : Bool)
  /-- Result of `errors.Wrap(cause, msg)` for a non-nil `cause`. -/
  | wrap (cause : GoError) (msg : String)
  deriving DecidableEq, Repr

/-- The function `errors.Wrap(err, message)` of github.com/pkg/errors: nil stays nil. -/
def errorsWrap (err : Option GoError) (message : String) : Option GoError :=
  match err with
  | none => none
  | some e => some (GoError.wrap e message)

/-- A schema descriptor handed to `RegisterModels` (an `interface{}` value). -/
structure Model where
  name : String
  deriving DecidableEq, Repr

/-- A non-nil `*gorm.DB`: the identity of the instance and its `Error` field. -/
structure GormDB where
  ptr : Nat
  Error : Option GoError
  deriving DecidableEq, Repr

/-- Argument of a logger call: a message string or an error value. -/
inductive LogArg where
  | msg (text : String)
  | err (e : GoError)
  deriving DecidableEq, Repr

/-- Calls issued to the collaborators, with their arguments and results. -/
inductive Event where
  | spanStart (name : String)
  | spanEnd (name : String)
  | logError (arg : LogArg)
  | logFatal (arg : LogArg)
  | gormOpen (dsn : String) (db : Option GormDB) (err : Option GoError)
  | autoMigrate (db : GormDB) (dst : List Model) (err : Option GoError)
  | begin (dbh : GormDB) (tx : GormDB)
  | txFunc (tx : GormDB) (err : Option GoError)
  | rollback (tx : GormDB) (res : GormDB)
  | commit (tx : GormDB) (res : GormDB)
  deriving DecidableEq, Repr

/-- The package-level variables, the external world and the call trace. -/
structure State (W : Type) where
  /-- The slice `models` of modelRegistration.go. -/
  models : List Model
  /-- The flag `modelsSet`. -/
  modelsSet : Bool
  /-- Done flag of `modelsOnce`. -/
  modelsOnce : Bool
  /-- The pointer `db` of databaseHelper.go; `none` is nil. -/
  db : Option GormDB
  /-- Done flag of `once`. -/
  once : Bool
  /-- State of the environment and of the persistence driver. -/
  world : W
  /-- Calls issued so far, oldest first. -/
  trace : List Event
  deriving DecidableEq, Repr

/-- Process start: all package-level variables have their zero value. -/
def State.init {W : Type} (w : W) : State W :=
  { models := [], modelsSet := false, modelsOnce := false, db := none, once := false,
    world := w, trace := [] }

/-- Record one call to a collaborator. -/
def State.emit {W : Type} (s : State W) (e : Event) : State W :=
  { s with trace := s.trace ++ [e] }

/-- How a call ends: it returns, the process is terminated by `logger.Fatal`,
or it panics on a nil receiver. -/
inductive Outcome (W : Type) (α : Type) where
  | ret (a : α) (s : State W)
  | fatal (s : State W)
  | panic (s : State W)
  deriving DecidableEq, Repr

/-- The external collaborators.  Each operation may read and change the world. -/
structure Driver (W : Type) where
  /-- Call `godotenv.Load(file)`; its error is discarded by the code. -/
  godotenvLoad : String → W → W
  /-- Call `os.Getenv(key)`. -/
  getenv : String → W → String
  /-- Call `gorm.Open(postgres.Open(dsn), cfg)`: the pair `(db, err)`. -/
  gormOpen : String → W → (Option GormDB × Option GoError) × W
  /-- Call `db.AutoMigrate(dst...)`. -/
  autoMigrate : GormDB → List Model → W → Option GoError × W
  /-- Call `dbh.Begin()`: the transactional handle, its `Error` set on failure. -/
  begin : GormDB → W → GormDB × W
  /-- Call `tx.Rollback()`. -/
  rollback : GormDB → W → GormDB × W
  /-- Call `tx.Commit()`. -/
  commit : GormDB → W → GormDB × W

/-! ### modelRegistration.go -/

/-- The function `RegisterModels(ctx, newModels...)`. -/
def RegisterModels {W : Type} (newModels : List Model) (s : State W) : State W :=
  let s := s.emit (.spanStart "RegisterModels")
  if s.modelsSet then
    (s.emit (.logError (.msg "Models have already been set"))).emit (.spanEnd "RegisterModels")
  else
    -- modelsOnce.Do(func() ...)
    let s := if s.modelsOnce then s
             else { s with models := newModels, modelsSet := true, modelsOnce := true }
    s.emit (.spanEnd "RegisterModels")

/-! ### strconv and fmt, as used by initDB -/

/-- The loop of `strconv.ParseUint(s, 10, 64)` over the remaining characters with
accumulator `n`: `none` is `ErrSyntax`, `some none` is `ErrRange`. -/
def parseUintLoop : List Char → Nat → Option (Option Nat)
  | [], n => some (some n)
  | c :: cs, n =>
    if c.toNat < 48 ∨ 57 < c.toNat then none
    else if n ≥ 1844674407370955162 then some none
    else if n * 10 + (c.toNat - 48) > 18446744073709551615 then some none
    else parseUintLoop cs (n * 10 + (c.toNat - 48))

/-- The function `strconv.Atoi(s)` on a 64-bit platform: the pair `(n, err)`. -/
def Atoi (s : String) : Int × Option GoError :=
  let synt : Int × Option GoError := (0, some (.numError "Atoi" s false))
  let neg := s.data.head? = some '-'
  let digits := if s.data.head? = some '-' ∨ s.data.head? = some '+' then s.data.tail else s.data
  if digits = [] then synt
  else match parseUintLoop digits 0 with
    | none => synt
    | some none =>
      (if neg then -9223372036854775808 else 9223372036854775807,
        some (.numError "Atoi" s true))
    | some (some un) =>
      if ¬ neg ∧ un ≥ 9223372036854775808 then
        (9223372036854775807, some (.numError "Atoi" s true))
      else if neg ∧ un > 9223372036854775808 then
        (-9223372036854775808, some (.numError "Atoi" s true))
      else (if neg then -(un : Int) else (un : Int), none)

/-- The function `strconv.ParseBool(str)`: the pair `(b, err)`. -/
def ParseBool (str : String) : Bool × Option GoError :=
  if str ∈ ["1", "t", "T", "TRUE", "true", "True"] then (true, none)
  else if str ∈ ["0", "f", "F", "FALSE", "false", "False"] then (false, none)
  else (false, some (.numError "ParseBool" str false))

/-- Decimal rendering of `%d`. -/
def fmtInt (n : Int) : String :=
  match n with
  | .ofNat k => Nat.repr k
  | .negSucc k => "-" ++ Nat.repr (k + 1)

/-! ### databaseHelper.go -/

/-- Read one string setting: `os.Getenv`, with the default and an error report
when the value is empty. -/
def envOrDefault {W : Type} (d : Driver W) (key dflt : String) (s : State W) :
    String × State W :=
  if d.getenv key s.world = "" then
    (dflt, s.emit (.logError (.msg (key ++ " not set, using default"))))
  else (d.getenv key s.world, s)

/-- Read one integer setting: `strconv.Atoi(os.Getenv(key))`, with the default and
an error report when parsing fails. -/
def atoiOrDefault {W : Type} (d : Driver W) (key : String) (dflt : Int) (s : State W) :
    Int × State W :=
  match (Atoi (d.getenv key s.world)).2 with
  | some e =>
    (dflt, s.emit (.logError (.err (.wrap e ("Failed to parse " ++ key ++ ", using default")))))
  | none => ((Atoi (d.getenv key s.world)).1, s)

/-- Read the boolean setting: `strconv.ParseBool(os.Getenv(key))`, with the default
and an error report when parsing fails. -/
def parseBoolOrDefault {W : Type} (d : Driver W) (key : String) (dflt : Bool) (s : State W) :
    Bool × State W :=
  match (ParseBool (d.getenv key s.world)).2 with
  | some e =>
    (dflt, s.emit (.logError (.err (.wrap e ("Failed to parse " ++ key ++ ", using default")))))
  | none => ((ParseBool (d.getenv key s.world)).1, s)

/-- The first part of `initDB`: load `.env`, read the settings in source order and
format the connection string. -/
def resolveDSN {W : Type} (d : Driver W) (s : State W) : String × State W :=
  let s := { s with world := d.godotenvLoad ".env" s.world }
  let host := envOrDefault d "DB_HOST" "db" s
  let userName := envOrDefault d "DB_USERNAME" "test" host.2
  let password := envOrDefault d "DB_PASSWORD" "test" userName.2
  let dbName := envOrDefault d "DB_NAME" "test" password.2
  let timeZone := envOrDefault d "TZ" "Europe/Berlin" dbName.2
  let connectTimeoutSeconds := atoiOrDefault d "CONNECT_TIMEOUT_SECONDS" 10 timeZone.2
  let port := atoiOrDefault d "DB_PORT" 5432 connectTimeoutSeconds.2
  let sslMode := parseBoolOrDefault d "DB_SSL_MODE" true port.2
  let sslModeString := if !sslMode.1 then "disable" else "enable"
  ("host=" ++ host.1 ++ " user=" ++ userName.1 ++ " password=" ++ password.1
    ++ " dbname=" ++ dbName.1 ++ " port=" ++ fmtInt port.1 ++ " sslmode=" ++ sslModeString
    ++ " TimeZone=" ++ timeZone.1 ++ " connect_timeout=" ++ fmtInt connectTimeoutSeconds.1,
   sslMode.2)

/-- The function `initDB(ctx)`: the pair `(db, err)` it returns.  Its `db` is a
local variable: the shared `db` is not assigned here. -/
def initDB {W : Type} (d : Driver W) (s : State W) :
    Outcome W (Option GormDB × Option GoError) :=
  let s := s.emit (.spanStart "initDB")
  let cfg := resolveDSN d s
  let dsn := cfg.1
  let s := cfg.2
  -- db, err1 := gorm.Open(...)
  let opened := d.gormOpen dsn s.world
  let s := { s with world := opened.2 }.emit (.gormOpen dsn opened.1.1 opened.1.2)
  match opened.1.2 with
  | some err1 =>
    .fatal (s.emit (.logFatal (.err (.wrap err1 "Failed to connect to the database"))))
  | none =>
    match opened.1.1 with
    | none => .panic s
    | some db =>
      -- err2 := db.AutoMigrate(models...)
      let migrated := d.autoMigrate db s.models s.world
      let s := { s with world := migrated.2 }.emit (.autoMigrate db s.models migrated.1)
      match migrated.1 with
      | some err2 =>
        .fatal (s.emit (.logFatal (.err (.wrap err2 "Failed to migrate the models"))))
      | none => .ret (some db, none) (s.emit (.spanEnd "initDB"))

/-- The function `GetDB(ctx)`: the pointer it returns (`none` is nil). -/
def GetDB {W : Type} (d : Driver W) (s : State W) : Outcome W (Option GormDB) :=
  let s := s.emit (.spanStart "GetDB")
  if !s.modelsSet then
    .fatal (s.emit (.logFatal
      (.msg "Models must be registered before calling GetDB. Call RegisterModels first.")))
  else if s.once then
    -- once.Do does nothing; return db
    .ret s.db (s.emit (.spanEnd "GetDB"))
  else
    -- once.Do(func() ...)
    match initDB d s with
    | .fatal s => .fatal s
    | .panic s => .panic s
    | .ret r s =>
      -- db, err = initDB(ctx)
      let s := { s with db := r.1 }
      match r.2 with
      | some err =>
        .fatal (s.emit (.logFatal (.err (.wrap err "Failed to initialize the database"))))
      | none =>
        let s := { s with once := true }
        .ret s.db (s.emit (.spanEnd "GetDB"))

/-! ### transactionHelper.go -/

/-- A unit of work: it receives the transactional handle, may change the world
through it, and returns an error or nil. -/
abbrev TxFunc (W : Type) := GormDB → W → Option GoError × W

/-- The function `TransactionHandler(ctx, txFunc)`: the error it returns. -/
def TransactionHandler {W : Type} (d : Driver W) (txFunc : TxFunc W) (s : State W) :
    Outcome W (Option GoError) :=
  let s := s.emit (.spanStart "HandleTransaction")
  match GetDB d s with
  | .fatal s => .fatal s
  | .panic s => .panic s
  | .ret none s => .panic s
  | .ret (some dbh) s =>
    -- tx := dbh.Begin()
    let begun := d.begin dbh s.world
    let tx := begun.1
    let s := { s with world := begun.2 }.emit (.begin dbh tx)
    match tx.Error with
    | some e =>
      .ret (errorsWrap (some e) "Failed to start the transaction")
        (s.emit (.spanEnd "HandleTransaction"))
    | none =>
      let ran := txFunc tx s.world
      let s := { s with world := ran.2 }.emit (.txFunc tx ran.1)
      match ran.1 with
      | some err =>
        -- tx.Rollback(), result ignored
        let rolled := d.rollback tx s.world
        let s := { s with world := rolled.2 }.emit (.rollback tx rolled.1)
        .ret (errorsWrap (some err) "Transaction failed, rolled back")
          (s.emit (.spanEnd "HandleTransaction"))
      | none =>
        let committed := d.commit tx s.world
        let s := { s with world := committed.2 }.emit (.commit tx committed.1)
        match committed.1.Error with
        | some err =>
          .ret (errorsWrap (some err) "Failed to commit the transaction")
            (s.emit (.spanEnd "HandleTransaction"))
        | none => .ret none (s.emit (.spanEnd "HandleTransaction"))

/-! ### Observations on traces and outcomes -/

/-- Final state of a call, however it ended. -/
def Outcome.state {W α : Type} : Outcome W α → State W
  | .ret _ s => s
  | .fatal s => s
  | .panic s => s

/-- A `logger.Error` report. -/
def Event.isLog : Event → Bool
  | .logError _ => true
  | _ => false

/-- A `gorm.Open` call. -/
def Event.isOpen : Event → Bool
  | .gormOpen _ _ _ => true
  | _ => false

/-- An `AutoMigrate` call. -/
def Event.isMigrate : Event → Bool
  | .autoMigrate _ _ _ => true
  | _ => false

/-- A `Begin` call. -/
def Event.isBegin : Event → Bool
  | .begin _ _ => true
  | _ => false

/-- An invocation of the unit of work. -/
def Event.isTxFunc : Event → Bool
  | .txFunc _ _ => true
  | _ => false

/-- A `Rollback` call. -/
def Event.isRollback : Event → Bool
  | .rollback _ _ => true
  | _ => false

/-- A `Commit` call. -/
def Event.isCommit : Event → Bool
  | .commit _ _ => true
  | _ => false

/-- Calls on a transaction: begin, the unit of work, rollback, commit. -/
def Event.isTx (e : Event) : Bool :=
  e.isBegin || e.isTxFunc || e.isRollback || e.isCommit

/-- Entry into the creation routine: the span `initDB` opens first thing. -/
def Event.isInitDB : Event → Bool
  | .spanStart name => name == "initDB"
  | _ => false

/-- Calls of the creation routine: its entry, open and migrate. -/
def Event.isCreate (e : Event) : Bool :=
  e.isInitDB || e.isOpen || e.isMigrate

/-- An open or a migration that returned an error. -/
def Event.isFailedCreate : Event → Bool
  | .gormOpen _ _ (some _) => true
  | .autoMigrate _ _ (some _) => true
  | _ => false

/-- Number of times the creation routine was entered. -/
def initDBRuns (t : List Event) : Nat := t.countP Event.isInitDB

/-- Number of `gorm.Open` calls. -/
def opens (t : List Event) : Nat := t.countP Event.isOpen

/-- Number of `AutoMigrate` calls. -/
def migrations (t : List Event) : Nat := t.countP Event.isMigrate

/-- Number of `Begin` calls. -/
def begins (t : List Event) : Nat := t.countP Event.isBegin

/-- Number of invocations of the unit of work. -/
def txFuncCalls (t : List Event) : Nat := t.countP Event.isTxFunc

/-- Number of `Rollback` calls. -/
def rollbacks (t : List Event) : Nat := t.countP Event.isRollback

/-- Number of `Commit` calls. -/
def commits (t : List Event) : Nat := t.countP Event.isCommit

/-- The transaction calls of a trace, in order. -/
def txOps (t : List Event) : List Event := t.filter Event.isTx

/-- The connection-creating calls of a trace, in order. -/
def createOps (t : List Event) : List Event := t.filter Event.isCreate

/-- Relation `LogStep s t`: `t` is `s` with more `logger.Error` reports and
possibly another world. -/
structure LogStep {W : Type} (s t : State W) : Prop where
  models : t.models = s.models
  modelsSet : t.modelsSet = s.modelsSet
  modelsOnce : t.modelsOnce = s.modelsOnce
  db : t.db = s.db
  once : t.once = s.once
  trace : ∃ evs, t.trace = s.trace ++ evs ∧ ∀ e ∈ evs, e.isLog = true

/-! ### Intermediate states of initDB, GetDB and TransactionHandler -/

/-- The state in which `initDB` opens the connection, and the connection string. -/
def initDBConfig {W : Type} (d : Driver W) (s : State W) : String × State W :=
  resolveDSN d (s.emit (.spanStart "initDB"))

/-- The state right after `gorm.Open` returned inside `initDB`. -/
def initDBOpened {W : Type} (d : Driver W) (s : State W) : State W :=
  { (initDBConfig d s).2 with
      world := (d.gormOpen (initDBConfig d s).1 (initDBConfig d s).2.world).2 }.emit
    (.gormOpen (initDBConfig d s).1
      (d.gormOpen (initDBConfig d s).1 (initDBConfig d s).2.world).1.1
      (d.gormOpen (initDBConfig d s).1 (initDBConfig d s).2.world).1.2)

/-- The state right after `AutoMigrate` returned inside `initDB`, for the opened
handle `h`. -/
def initDBMigrated {W : Type} (d : Driver W) (s : State W) (h : GormDB) : State W :=
  { initDBOpened d s with
      world := (d.autoMigrate h (initDBOpened d s).models (initDBOpened d s).world).2 }.emit
    (.autoMigrate h (initDBOpened d s).models
      (d.autoMigrate h (initDBOpened d s).models (initDBOpened d s).world).1)

/-- Summary of one `GetDB` call from state `s`: how it ended, the package-level
variables afterwards, and exactly which calls it issued. -/
inductive GetDBSpec {W : Type} (s : State W) : Outcome W (Option GormDB) → Prop where
  /-- Models were not registered: fatal before the guard is touched. -/
  | unregistered (s1 : State W) :
      s.modelsSet = false →
      s1 = (s.emit (.spanStart "GetDB")).emit (.logFatal
        (.msg "Models must be registered before calling GetDB. Call RegisterModels first.")) →
      GetDBSpec s (.fatal s1)
  /-- The guard was already consumed: the stored pointer is returned. -/
  | hot (r : Option GormDB) (s1 : State W) :
      s.modelsSet = true → s.once = true → r = s.db →
      s1 = (s.emit (.spanStart "GetDB")).emit (.spanEnd "GetDB") →
      GetDBSpec s (.ret r s1)
  /-- First use, `gorm.Open` returned an error: fatal. -/
  | openFailed (logs : List Event) (dsn : String) (odb : Option GormDB) (err1 : GoError)
      (s1 : State W) :
      s.modelsSet = true → s.once = false → (∀ e ∈ logs, e.isLog = true) →
      s1.models = s.models → s1.modelsSet = s.modelsSet → s1.modelsOnce = s.modelsOnce →
      s1.db = s.db → s1.once = s.once →
      s1.trace = s.trace ++ [.spanStart "GetDB", .spanStart "initDB"] ++ logs ++
        [.gormOpen dsn odb (some err1),
         .logFatal (.err (.wrap err1 "Failed to connect to the database"))] →
      GetDBSpec s (.fatal s1)
  /-- First use, `gorm.Open` returned neither a handle nor an error: nil receiver. -/
  | openNil (logs : List Event) (dsn : String) (s1 : State W) :
      s.modelsSet = true → s.once = false → (∀ e ∈ logs, e.isLog = true) →
      s1.models = s.models → s1.modelsSet = s.modelsSet → s1.modelsOnce = s.modelsOnce →
      s1.db = s.db → s1.once = s.once →
      s1.trace = s.trace ++ [.spanStart "GetDB", .spanStart "initDB"] ++ logs ++
        [.gormOpen dsn none none] →
      GetDBSpec s (.panic s1)
  /-- First use, the connection opened and `AutoMigrate` returned an error: fatal. -/
  | migrateFailed (logs : List Event) (dsn : String) (db : GormDB) (err2 : GoError)
      (s1 : State W) :
      s.modelsSet = true → s.once = false → (∀ e ∈ logs, e.isLog = true) →
      s1.models = s.models → s1.modelsSet = s.modelsSet → s1.modelsOnce = s.modelsOnce →
      s1.db = s.db → s1.once = s.once →
      s1.trace = s.trace ++ [.spanStart "GetDB", .spanStart "initDB"] ++ logs ++
        [.gormOpen dsn (some db) none, .autoMigrate db s.models (some err2),
         .logFatal (.err (.wrap err2 "Failed to migrate the models"))] →
      GetDBSpec s (.fatal s1)
  /-- First use, open and migration succeeded: the handle is stored and returned. -/
  | created (logs : List Event) (dsn : String) (db : GormDB) (r : Option GormDB)
      (s1 : State W) :
      s.modelsSet = true → s.once = false → (∀ e ∈ logs, e.isLog = true) →
      s1.models = s.models → s1.modelsSet = s.modelsSet → s1.modelsOnce = s.modelsOnce →
      r = some db → s1.db = some db → s1.once = true →
      s1.trace = s.trace ++ [.spanStart "GetDB", .spanStart "initDB"] ++ logs ++
        [.gormOpen dsn (some db) none, .autoMigrate db s.models none,
         .spanEnd "initDB", .spanEnd "GetDB"] →
      GetDBSpec s (.ret r s1)

/-- The package-level variables of `t` are those of `s`. -/
structure SameVars {W : Type} (s t : State W) : Prop where
  models : t.models = s.models
  modelsSet : t.modelsSet = s.modelsSet
  modelsOnce : t.modelsOnce = s.modelsOnce
  db : t.db = s.db
  once : t.once = s.once

/-- Calls `GetDB` can issue: spans, log reports, open, migrate. -/
def Event.isSetup : Event → Bool
  | .spanStart _ | .spanEnd _ | .logError _ | .logFatal _ => true
  | .gormOpen _ _ _ | .autoMigrate _ _ _ => true
  | _ => false

/-- State after `dbh.Begin()` returned, from the state `s1` left by `GetDB`. -/
def txBegun {W : Type} (d : Driver W) (dbh : GormDB) (s1 : State W) : State W :=
  { s1 with world := (d.begin dbh s1.world).2 }.emit (.begin dbh (d.begin dbh s1.world).1)

/-- State after the unit of work returned. -/
def txRan {W : Type} (d : Driver W) (txFunc : TxFunc W) (dbh : GormDB) (s1 : State W) :
    State W :=
  { txBegun d dbh s1 with
      world := (txFunc (d.begin dbh s1.world).1 (d.begin dbh s1.world).2).2 }.emit
    (.txFunc (d.begin dbh s1.world).1
      (txFunc (d.begin dbh s1.world).1 (d.begin dbh s1.world).2).1)

/-- State after `tx.Rollback()` returned. -/
def txRolledBack {W : Type} (d : Driver W) (txFunc : TxFunc W) (dbh : GormDB) (s1 : State W) :
    State W :=
  { txRan d txFunc dbh s1 with
      world := (d.rollback (d.begin dbh s1.world).1 (txRan d txFunc dbh s1).world).2 }.emit
    (.rollback (d.begin dbh s1.world).1
      (d.rollback (d.begin dbh s1.world).1 (txRan d txFunc dbh s1).world).1)

/-- State after `tx.Commit()` returned. -/
def txCommitted {W : Type} (d : Driver W) (txFunc : TxFunc W) (dbh : GormDB) (s1 : State W) :
    State W :=
  { txRan d txFunc dbh s1 with
      world := (d.commit (d.begin dbh s1.world).1 (txRan d txFunc dbh s1).world).2 }.emit
    (.commit (d.begin dbh s1.world).1
      (d.commit (d.begin dbh s1.world).1 (txRan d txFunc dbh s1).world).1)

/-! ### Call sequences and the handle invariant -/

/-- One call of the exposed interface. -/
inductive Call (W : Type) where
  | registerModels (newModels : List Model)
  | getDB
  | transactionHandler (txFunc : TxFunc W)

/-- Forget the returned value. -/
def Outcome.void {W α : Type} : Outcome W α → Outcome W Unit
  | .ret _ s => .ret () s
  | .fatal s => .fatal s
  | .panic s => .panic s

/-- Perform one call. -/
def Call.exec {W : Type} (d : Driver W) : Call W → State W → Outcome W Unit
  | .registerModels newModels, s => .ret () (RegisterModels newModels s)
  | .getDB, s => (GetDB d s).void
  | .transactionHandler txFunc, s => (TransactionHandler d txFunc s).void

/-- Perform calls one after the other; the process stops at the first call that
does not return. -/
def run {W : Type} (d : Driver W) : List (Call W) → State W → Outcome W Unit
  | [], s => .ret () s
  | c :: cs, s =>
    match c.exec d s with
    | .ret _ t => run d cs t
    | .fatal t => .fatal t
    | .panic t => .panic t

/-- The handle invariant: either the guard is unconsumed, the shared handle is nil
and the creation routine never ran; or the guard is consumed, models are registered,
and the creation routine ran exactly once: it opened the stored handle without error
and then migrated the registered models on it without error. -/
def HandleInv {W : Type} (s : State W) : Prop :=
  (s.once = false ∧ s.db = none ∧ createOps s.trace = []) ∨
  (s.once = true ∧ s.modelsSet = true ∧ ∃ h dsn, s.db = some h ∧
    createOps s.trace =
      [.spanStart "initDB", .gormOpen dsn (some h) none, .autoMigrate h s.models none])

/-- A state in which the handle `h` is stored behind the consumed guard. -/
def Ready {W : Type} (h : GormDB) (s : State W) : Prop :=
  HandleInv s ∧ s.once = true ∧ s.db = some h

/-! ### Concrete driver, states and units of work -/

/-- A driver on a world that counts driver calls: open and migration succeed,
`Begin` and `Commit` return the given errors, `Rollback` always fails. -/
def demoDriver (beginErr commitErr : Option GoError) : Driver Nat where
  godotenvLoad := fun _ w => w
  getenv := fun key _ => if key = "DB_PORT" then "5433" else ""
  gormOpen := fun _ w => ((some ⟨1, none⟩, none), w + 1)
  autoMigrate := fun _ _ w => (none, w + 1)
  begin := fun dbh w => (⟨dbh.ptr + 1, beginErr⟩, w + 1)
  rollback := fun tx w => (⟨tx.ptr, some (.new "rollback failed")⟩, w + 1)
  commit := fun tx w => (⟨tx.ptr, commitErr⟩, w + 1)

/-- Process state after one registration of two models. -/
def demoRegistered : State Nat :=
  RegisterModels [⟨"User"⟩, ⟨"Order"⟩] (State.init 0)

/-- A unit of work that fails. -/
def failingWork : TxFunc Nat := fun _ w => (some (.new "boom"), w + 1)

/-- A unit of work that succeeds. -/
def okWork : TxFunc Nat := fun _ w => (none, w + 1)

/-- State left by the `GetDB` call inside `TransactionHandler` from `demoRegistered`. -/
def demoAfterGetDB (beginErr commitErr : Option GoError) : State Nat :=
  (GetDB (demoDriver beginErr commitErr)
    (demoRegistered.emit (.spanStart "HandleTransaction"))).state

/-! ## Theorems -/

/-! ### Configuration reading only logs -/

theorem logStep_refl {W : Type} (s : State W) : LogStep s s :=
  ⟨rfl, rfl, rfl, rfl, rfl, [], by simp, by simp⟩

theorem logStep_trans {W : Type} {s t u : State W} (h1 : LogStep s t) (h2 : LogStep t u) :
    LogStep s u := by
  obtain ⟨e1, he1, hl1⟩ := h1.trace
  obtain ⟨e2, he2, hl2⟩ := h2.trace
  refine ⟨h2.models.trans h1.models, h2.modelsSet.trans h1.modelsSet,
    h2.modelsOnce.trans h1.modelsOnce, h2.db.trans h1.db, h2.once.trans h1.once,
    e1 ++ e2, ?_, ?_⟩
  · rw [he2, he1, List.append_assoc]
  · intro e he
    rcases List.mem_append.mp he with h | h
    · exact hl1 e h
    · exact hl2 e h

theorem logStep_emit {W : Type} (s : State W) (a : LogArg) : LogStep s (s.emit (.logError a)) :=
  ⟨rfl, rfl, rfl, rfl, rfl, [.logError a], rfl, by simp [Event.isLog]⟩

theorem envOrDefault_logStep {W : Type} (d : Driver W) (key dflt : String) (s : State W) :
    LogStep s (envOrDefault d key dflt s).2 := by
  unfold envOrDefault
  split
  · exact logStep_emit _ _
  · exact logStep_refl _

theorem atoiOrDefault_logStep {W : Type} (d : Driver W) (key : String) (dflt : Int)
    (s : State W) : LogStep s (atoiOrDefault d key dflt s).2 := by
  unfold atoiOrDefault
  split
  · exact logStep_emit _ _
  · exact logStep_refl _

theorem parseBoolOrDefault_logStep {W : Type} (d : Driver W) (key : String) (dflt : Bool)
    (s : State W) : LogStep s (parseBoolOrDefault d key dflt s).2 := by
  unfold parseBoolOrDefault
  split
  · exact logStep_emit _ _
  · exact logStep_refl _

theorem resolveDSN_logStep {W : Type} (d : Driver W) (s : State W) :
    LogStep s (resolveDSN d s).2 := by
  have h0 : LogStep s { s with world := d.godotenvLoad ".env" s.world } :=
    ⟨rfl, rfl, rfl, rfl, rfl, [], by simp, by simp⟩
  unfold resolveDSN
  exact logStep_trans h0 <| logStep_trans (envOrDefault_logStep d _ _ _) <|
    logStep_trans (envOrDefault_logStep d _ _ _) <|
    logStep_trans (envOrDefault_logStep d _ _ _) <|
    logStep_trans (envOrDefault_logStep d _ _ _) <|
    logStep_trans (envOrDefault_logStep d _ _ _) <|
    logStep_trans (atoiOrDefault_logStep d _ _ _) <|
    logStep_trans (atoiOrDefault_logStep d _ _ _) (parseBoolOrDefault_logStep d _ _ _)

/-! ### The ways initDB and GetDB can go -/

theorem initDB_open_error {W : Type} (d : Driver W) (s : State W) (err1 : GoError)
    (h : (d.gormOpen (initDBConfig d s).1 (initDBConfig d s).2.world).1.2 = some err1) :
    initDB d s = .fatal ((initDBOpened d s).emit
      (.logFatal (.err (.wrap err1 "Failed to connect to the database")))) := by
  unfold initDBConfig at h
  simp only [initDB, initDBOpened, initDBConfig, h]

theorem initDB_open_nil {W : Type} (d : Driver W) (s : State W)
    (h : (d.gormOpen (initDBConfig d s).1 (initDBConfig d s).2.world).1.2 = none)
    (hdb : (d.gormOpen (initDBConfig d s).1 (initDBConfig d s).2.world).1.1 = none) :
    initDB d s = .panic (initDBOpened d s) := by
  unfold initDBConfig at h hdb
  simp only [initDB, initDBOpened, initDBConfig, h, hdb]

theorem initDB_migrate_error {W : Type} (d : Driver W) (s : State W) (db : GormDB)
    (err2 : GoError)
    (h : (d.gormOpen (initDBConfig d s).1 (initDBConfig d s).2.world).1.2 = none)
    (hdb : (d.gormOpen (initDBConfig d s).1 (initDBConfig d s).2.world).1.1 = some db)
    (hm : (d.autoMigrate db (initDBOpened d s).models (initDBOpened d s).world).1 = some err2) :
    initDB d s = .fatal ((initDBMigrated d s db).emit
      (.logFatal (.err (.wrap err2 "Failed to migrate the models")))) := by
  unfold initDBOpened initDBConfig at hm
  unfold initDBConfig at h hdb
  simp only [h, hdb] at hm
  simp only [initDB, initDBMigrated, initDBOpened, initDBConfig, h, hdb, hm]

theorem initDB_ok {W : Type} (d : Driver W) (s : State W) (db : GormDB)
    (h : (d.gormOpen (initDBConfig d s).1 (initDBConfig d s).2.world).1.2 = none)
    (hdb : (d.gormOpen (initDBConfig d s).1 (initDBConfig d s).2.world).1.1 = some db)
    (hm : (d.autoMigrate db (initDBOpened d s).models (initDBOpened d s).world).1 = none) :
    initDB d s = .ret (some db, none) ((initDBMigrated d s db).emit (.spanEnd "initDB")) := by
  unfold initDBOpened initDBConfig at hm
  unfold initDBConfig at h hdb
  simp only [h, hdb] at hm
  simp only [initDB, initDBMigrated, initDBOpened, initDBConfig, h, hdb, hm]

theorem GetDB_unregistered {W : Type} (d : Driver W) (s : State W)
    (hset : s.modelsSet = false) :
    GetDB d s = .fatal ((s.emit (.spanStart "GetDB")).emit (.logFatal
      (.msg "Models must be registered before calling GetDB. Call RegisterModels first."))) := by
  simp [GetDB, State.emit, hset]

theorem GetDB_hot {W : Type} (d : Driver W) (s : State W)
    (hset : s.modelsSet = true) (honce : s.once = true) :
    GetDB d s = .ret s.db ((s.emit (.spanStart "GetDB")).emit (.spanEnd "GetDB")) := by
  simp [GetDB, State.emit, hset, honce]

theorem GetDB_cold {W : Type} (d : Driver W) (s : State W)
    (hset : s.modelsSet = true) (honce : s.once = false) :
    GetDB d s =
      match initDB d (s.emit (.spanStart "GetDB")) with
      | .fatal t => .fatal t
      | .panic t => .panic t
      | .ret r t =>
        match r.2 with
        | some err =>
          .fatal ({ t with db := r.1 }.emit
            (.logFatal (.err (.wrap err "Failed to initialize the database"))))
        | none => .ret r.1 ({ t with db := r.1, once := true }.emit (.spanEnd "GetDB")) := by
  simp only [GetDB, State.emit, hset, honce]
  simp only [Bool.not_true, Bool.false_eq_true, if_false]

@[simp]
theorem emit_trace {W : Type} (s : State W) (e : Event) :
    (s.emit e).trace = s.trace ++ [e] := rfl

theorem initDBConfig_logStep {W : Type} (d : Driver W) (s : State W) :
    LogStep (s.emit (.spanStart "initDB")) (initDBConfig d s).2 :=
  resolveDSN_logStep d _

theorem initDBOpened_trace {W : Type} (d : Driver W) (s : State W) :
    (initDBOpened d s).trace = (initDBConfig d s).2.trace ++
      [.gormOpen (initDBConfig d s).1
        (d.gormOpen (initDBConfig d s).1 (initDBConfig d s).2.world).1.1
        (d.gormOpen (initDBConfig d s).1 (initDBConfig d s).2.world).1.2] := rfl

theorem initDBMigrated_trace {W : Type} (d : Driver W) (s : State W) (db : GormDB) :
    (initDBMigrated d s db).trace = (initDBOpened d s).trace ++
      [.autoMigrate db (initDBOpened d s).models
        (d.autoMigrate db (initDBOpened d s).models (initDBOpened d s).world).1] := rfl

theorem initDBOpened_vars {W : Type} (d : Driver W) (s : State W) :
    SameVars s (initDBOpened d s) :=
  have h := initDBConfig_logStep d s
  ⟨h.models, h.modelsSet, h.modelsOnce, h.db, h.once⟩

theorem initDBMigrated_vars {W : Type} (d : Driver W) (s : State W) (db : GormDB) :
    SameVars s (initDBMigrated d s db) :=
  have h := initDBOpened_vars d s
  ⟨h.models, h.modelsSet, h.modelsOnce, h.db, h.once⟩

theorem GetDB_spec {W : Type} (d : Driver W) (s : State W) : GetDBSpec s (GetDB d s) := by
  cases hset : s.modelsSet
  · rw [GetDB_unregistered d s hset]
    exact .unregistered _ hset rfl
  cases honce : s.once
  swap
  · rw [GetDB_hot d s hset honce]
    exact .hot _ _ hset honce rfl rfl
  have hcfg := initDBConfig_logStep d (s.emit (.spanStart "GetDB"))
  obtain ⟨logs, hlogs, hall⟩ := hcfg.trace
  have htr : (initDBConfig d (s.emit (.spanStart "GetDB"))).2.trace
      = s.trace ++ [.spanStart "GetDB", .spanStart "initDB"] ++ logs := by
    rw [hlogs]; simp
  have hov := initDBOpened_vars d (s.emit (.spanStart "GetDB"))
  rw [GetDB_cold d s hset honce]
  cases h2 : (d.gormOpen (initDBConfig d (s.emit (.spanStart "GetDB"))).1
      (initDBConfig d (s.emit (.spanStart "GetDB"))).2.world).1.2 with
  | some err1 =>
    rw [initDB_open_error d _ err1 h2]
    refine .openFailed logs (initDBConfig d (s.emit (.spanStart "GetDB"))).1
      ((d.gormOpen (initDBConfig d (s.emit (.spanStart "GetDB"))).1
      (initDBConfig d (s.emit (.spanStart "GetDB"))).2.world).1.1) err1 _ hset honce hall
      hov.models hov.modelsSet hov.modelsOnce hov.db hov.once ?_
    rw [emit_trace, initDBOpened_trace, h2, htr]
    simp
  | none =>
    cases h1 : (d.gormOpen (initDBConfig d (s.emit (.spanStart "GetDB"))).1
        (initDBConfig d (s.emit (.spanStart "GetDB"))).2.world).1.1 with
    | none =>
      rw [initDB_open_nil d _ h2 h1]
      refine .openNil logs (initDBConfig d (s.emit (.spanStart "GetDB"))).1 _ hset honce hall
        hov.models hov.modelsSet hov.modelsOnce hov.db hov.once ?_
      rw [initDBOpened_trace, h2, h1, htr]
    | some db =>
      have hmv := initDBMigrated_vars d (s.emit (.spanStart "GetDB")) db
      have hmodels : (initDBOpened d (s.emit (.spanStart "GetDB"))).models = s.models :=
        hov.models
      cases hm : (d.autoMigrate db (initDBOpened d (s.emit (.spanStart "GetDB"))).models
          (initDBOpened d (s.emit (.spanStart "GetDB"))).world).1 with
      | some err2 =>
        rw [initDB_migrate_error d _ db err2 h2 h1 hm]
        refine .migrateFailed logs (initDBConfig d (s.emit (.spanStart "GetDB"))).1 db err2 _
          hset honce hall hmv.models hmv.modelsSet hmv.modelsOnce hmv.db hmv.once ?_
        rw [emit_trace, initDBMigrated_trace, hm, hmodels, initDBOpened_trace, h2, h1, htr]
        simp
      | none =>
        rw [initDB_ok d _ db h2 h1 hm]
        refine .created logs (initDBConfig d (s.emit (.spanStart "GetDB"))).1 db _ _
          hset honce hall hmv.models hmv.modelsSet hmv.modelsOnce rfl rfl rfl ?_
        show (((initDBMigrated d (s.emit (.spanStart "GetDB")) db).trace
          ++ [.spanEnd "initDB"]) ++ [.spanEnd "GetDB"]) = _
        rw [initDBMigrated_trace, hm, hmodels, initDBOpened_trace, h2, h1, htr]
        simp

theorem isSetup_of_isLog {e : Event} (h : e.isLog = true) : e.isSetup = true := by
  cases e <;> simp_all [Event.isLog, Event.isSetup]

theorem GetDB_trace {W : Type} (d : Driver W) (s : State W) :
    ∃ evs, (GetDB d s).state.trace = s.trace ++ evs ∧ ∀ e ∈ evs, e.isSetup = true := by
  have hspec := GetDB_spec d s
  generalize GetDB d s = out at hspec
  cases hspec with
  | unregistered s1 _ h1 =>
    refine ⟨[.spanStart "GetDB", .logFatal (.msg
      "Models must be registered before calling GetDB. Call RegisterModels first.")], ?_, ?_⟩
    · simp [Outcome.state, h1]
    · simp [Event.isSetup]
  | hot r s1 _ _ _ h1 =>
    refine ⟨[.spanStart "GetDB", .spanEnd "GetDB"], ?_, ?_⟩
    · simp [Outcome.state, h1]
    · simp [Event.isSetup]
  | openFailed logs dsn odb err1 s1 _ _ hall _ _ _ _ _ htr =>
    refine ⟨_, by simpa [Outcome.state, List.append_assoc] using htr, ?_⟩
    intro e he
    simp only [List.mem_append, List.mem_cons, List.mem_singleton, List.not_mem_nil,
      or_false] at he
    casesm* _ ∨ _
    all_goals first | (subst_vars; rfl) | exact isSetup_of_isLog (hall _ ‹_›)
  | openNil logs dsn s1 _ _ hall _ _ _ _ _ htr =>
    refine ⟨_, by simpa [Outcome.state, List.append_assoc] using htr, ?_⟩
    intro e he
    simp only [List.mem_append, List.mem_cons, List.mem_singleton, List.not_mem_nil,
      or_false] at he
    casesm* _ ∨ _
    all_goals first | (subst_vars; rfl) | exact isSetup_of_isLog (hall _ ‹_›)
  | migrateFailed logs dsn db err2 s1 _ _ hall _ _ _ _ _ htr =>
    refine ⟨_, by simpa [Outcome.state, List.append_assoc] using htr, ?_⟩
    intro e he
    simp only [List.mem_append, List.mem_cons, List.mem_singleton, List.not_mem_nil,
      or_false] at he
    casesm* _ ∨ _
    all_goals first | (subst_vars; rfl) | exact isSetup_of_isLog (hall _ ‹_›)
  | created logs dsn db r s1 _ _ hall _ _ _ _ _ _ htr =>
    refine ⟨_, by simpa [Outcome.state, List.append_assoc] using htr, ?_⟩
    intro e he
    simp only [List.mem_append, List.mem_cons, List.mem_singleton, List.not_mem_nil,
      or_false] at he
    casesm* _ ∨ _
    all_goals first | (subst_vars; rfl) | exact isSetup_of_isLog (hall _ ‹_›)

theorem filter_append_setup (p : Event → Bool) (hp : ∀ e, e.isSetup = true → p e = false)
    (t evs : List Event) (h : ∀ e ∈ evs, e.isSetup = true) :
    (t ++ evs).filter p = t.filter p := by
  rw [List.filter_append]
  have : evs.filter p = [] := by
    rw [List.filter_eq_nil_iff]
    intro e he
    simp [hp e (h e he)]
  rw [this, List.append_nil]

theorem GetDB_filter {W : Type} (d : Driver W) (s : State W) (p : Event → Bool)
    (hp : ∀ e, e.isSetup = true → p e = false) :
    (GetDB d s).state.trace.filter p = s.trace.filter p := by
  obtain ⟨evs, he, hall⟩ := GetDB_trace d s
  rw [he, filter_append_setup p hp _ _ hall]

theorem isTx_setup (e : Event) (h : e.isSetup = true) : e.isTx = false := by
  cases e <;> simp_all [Event.isSetup, Event.isTx, Event.isBegin, Event.isTxFunc,
    Event.isRollback, Event.isCommit]

theorem isBegin_setup (e : Event) (h : e.isSetup = true) : e.isBegin = false := by
  cases e <;> simp_all [Event.isSetup, Event.isBegin]

theorem isTxFunc_setup (e : Event) (h : e.isSetup = true) : e.isTxFunc = false := by
  cases e <;> simp_all [Event.isSetup, Event.isTxFunc]

theorem isRollback_setup (e : Event) (h : e.isSetup = true) : e.isRollback = false := by
  cases e <;> simp_all [Event.isSetup, Event.isRollback]

theorem isCommit_setup (e : Event) (h : e.isSetup = true) : e.isCommit = false := by
  cases e <;> simp_all [Event.isSetup, Event.isCommit]

/-- Whatever its outcome, `GetDB` issues no call on a transaction. -/
theorem GetDB_tx_counts {W : Type} (d : Driver W) (s : State W) :
    txOps (GetDB d s).state.trace = txOps s.trace ∧
    begins (GetDB d s).state.trace = begins s.trace ∧
    txFuncCalls (GetDB d s).state.trace = txFuncCalls s.trace ∧
    rollbacks (GetDB d s).state.trace = rollbacks s.trace ∧
    commits (GetDB d s).state.trace = commits s.trace := by
  simp only [txOps, begins, txFuncCalls, rollbacks, commits, List.countP_eq_length_filter]
  rw [GetDB_filter d s _ isTx_setup, GetDB_filter d s _ isBegin_setup,
    GetDB_filter d s _ isTxFunc_setup, GetDB_filter d s _ isRollback_setup,
    GetDB_filter d s _ isCommit_setup]
  simp

/-! ### The phases of TransactionHandler -/

theorem TransactionHandler_begin_error {W : Type} (d : Driver W) (txFunc : TxFunc W)
    (s s1 : State W) (dbh : GormDB) (e : GoError)
    (hdb : GetDB d (s.emit (.spanStart "HandleTransaction")) = .ret (some dbh) s1)
    (hbegin : (d.begin dbh s1.world).1.Error = some e) :
    TransactionHandler d txFunc s =
      .ret (some (.wrap e "Failed to start the transaction"))
        ((txBegun d dbh s1).emit (.spanEnd "HandleTransaction")) := by
  simp only [TransactionHandler, hdb, hbegin, errorsWrap, txBegun]

theorem TransactionHandler_work_error {W : Type} (d : Driver W) (txFunc : TxFunc W)
    (s s1 : State W) (dbh : GormDB) (e : GoError)
    (hdb : GetDB d (s.emit (.spanStart "HandleTransaction")) = .ret (some dbh) s1)
    (hbegin : (d.begin dbh s1.world).1.Error = none)
    (hwork : (txFunc (d.begin dbh s1.world).1 (d.begin dbh s1.world).2).1 = some e) :
    TransactionHandler d txFunc s =
      .ret (some (.wrap e "Transaction failed, rolled back"))
        ((txRolledBack d txFunc dbh s1).emit (.spanEnd "HandleTransaction")) := by
  simp only [TransactionHandler, hdb, hbegin, errorsWrap, txBegun, txRan, txRolledBack]
  simp only [State.emit, hwork]

theorem TransactionHandler_commit_error {W : Type} (d : Driver W) (txFunc : TxFunc W)
    (s s1 : State W) (dbh : GormDB) (e : GoError)
    (hdb : GetDB d (s.emit (.spanStart "HandleTransaction")) = .ret (some dbh) s1)
    (hbegin : (d.begin dbh s1.world).1.Error = none)
    (hwork : (txFunc (d.begin dbh s1.world).1 (d.begin dbh s1.world).2).1 = none)
    (hcommit : (d.commit (d.begin dbh s1.world).1
      (txFunc (d.begin dbh s1.world).1 (d.begin dbh s1.world).2).2).1.Error = some e) :
    TransactionHandler d txFunc s =
      .ret (some (.wrap e "Failed to commit the transaction"))
        ((txCommitted d txFunc dbh s1).emit (.spanEnd "HandleTransaction")) := by
  simp only [TransactionHandler, hdb, hbegin, errorsWrap, txBegun, txRan, txCommitted]
  simp only [State.emit, hwork, hcommit]

theorem TransactionHandler_commit_ok {W : Type} (d : Driver W) (txFunc : TxFunc W)
    (s s1 : State W) (dbh : GormDB)
    (hdb : GetDB d (s.emit (.spanStart "HandleTransaction")) = .ret (some dbh) s1)
    (hbegin : (d.begin dbh s1.world).1.Error = none)
    (hwork : (txFunc (d.begin dbh s1.world).1 (d.begin dbh s1.world).2).1 = none)
    (hcommit : (d.commit (d.begin dbh s1.world).1
      (txFunc (d.begin dbh s1.world).1 (d.begin dbh s1.world).2).2).1.Error = none) :
    TransactionHandler d txFunc s =
      .ret none ((txCommitted d txFunc dbh s1).emit (.spanEnd "HandleTransaction")) := by
  simp only [TransactionHandler, hdb, hbegin, errorsWrap, txBegun, txRan, txCommitted]
  simp only [State.emit, hwork, hcommit]

theorem GetDB_rollback_irrelevant {W : Type} (d : Driver W) (rb : GormDB → W → GormDB × W)
    (s : State W) : GetDB { d with rollback := rb } s = GetDB d s := rfl

theorem after_getDB {W : Type} (d : Driver W) (s s1 : State W) (r : Option GormDB)
    (hdb : GetDB d (s.emit (.spanStart "HandleTransaction")) = .ret r s1) :
    txOps s1.trace = txOps s.trace ∧ begins s1.trace = begins s.trace ∧
    txFuncCalls s1.trace = txFuncCalls s.trace ∧ rollbacks s1.trace = rollbacks s.trace ∧
    commits s1.trace = commits s.trace := by
  have h := GetDB_tx_counts d (s.emit (.spanStart "HandleTransaction"))
  rw [hdb] at h
  simpa [Outcome.state, txOps, begins, txFuncCalls, rollbacks, commits, Event.isTx,
    Event.isBegin, Event.isTxFunc, Event.isRollback, Event.isCommit] using h

theorem txBegun_trace {W : Type} (d : Driver W) (dbh : GormDB) (s1 : State W) :
    (txBegun d dbh s1).trace = s1.trace ++ [.begin dbh (d.begin dbh s1.world).1] := rfl

theorem txRolledBack_trace {W : Type} (d : Driver W) (txFunc : TxFunc W) (dbh : GormDB)
    (s1 : State W) :
    (txRolledBack d txFunc dbh s1).trace = s1.trace ++
      [.begin dbh (d.begin dbh s1.world).1,
       .txFunc (d.begin dbh s1.world).1
        (txFunc (d.begin dbh s1.world).1 (d.begin dbh s1.world).2).1,
       .rollback (d.begin dbh s1.world).1
        (d.rollback (d.begin dbh s1.world).1
          (txFunc (d.begin dbh s1.world).1 (d.begin dbh s1.world).2).2).1] := by
  simp [txRolledBack, txRan, txBegun, State.emit]

theorem txCommitted_trace {W : Type} (d : Driver W) (txFunc : TxFunc W) (dbh : GormDB)
    (s1 : State W) :
    (txCommitted d txFunc dbh s1).trace = s1.trace ++
      [.begin dbh (d.begin dbh s1.world).1,
       .txFunc (d.begin dbh s1.world).1
        (txFunc (d.begin dbh s1.world).1 (d.begin dbh s1.world).2).1,
       .commit (d.begin dbh s1.world).1
        (d.commit (d.begin dbh s1.world).1
          (txFunc (d.begin dbh s1.world).1 (d.begin dbh s1.world).2).2).1] := by
  simp [txCommitted, txRan, txBegun, State.emit]

/-! ### Claims on TransactionHandler -/

/-- C1 (amended): when beginning succeeds and the unit of work returns an error `e`,
`TransactionHandler` issues exactly one rollback and no commit, and returns `e`
wrapped with the context "Transaction failed, rolled back"; it returns that same
error whatever `Rollback` does. -/
theorem transactionHandler_work_error_rolls_back {W : Type} (d : Driver W)
    (txFunc : TxFunc W) (s s1 : State W) (dbh : GormDB) (e : GoError)
    (hdb : GetDB d (s.emit (.spanStart "HandleTransaction")) = .ret (some dbh) s1)
    (hbegin : (d.begin dbh s1.world).1.Error = none)
    (hwork : (txFunc (d.begin dbh s1.world).1 (d.begin dbh s1.world).2).1 = some e) :
    (∃ s2, TransactionHandler d txFunc s =
        .ret (some (.wrap e "Transaction failed, rolled back")) s2 ∧
      rollbacks s2.trace = rollbacks s.trace + 1 ∧
      commits s2.trace = commits s.trace) ∧
    (∀ rb : GormDB → W → GormDB × W, ∃ s3,
      TransactionHandler { d with rollback := rb } txFunc s =
        .ret (some (.wrap e "Transaction failed, rolled back")) s3) := by
  obtain ⟨_, _, _, hr, hc⟩ := after_getDB d s s1 _ hdb
  refine ⟨⟨_, TransactionHandler_work_error d txFunc s s1 dbh e hdb hbegin hwork, ?_, ?_⟩, ?_⟩
  · rw [emit_trace, txRolledBack_trace, ← hr]
    simp [rollbacks, Event.isRollback]
  · rw [emit_trace, txRolledBack_trace, ← hc]
    simp [commits, Event.isCommit]
  · intro rb
    exact ⟨_, TransactionHandler_work_error { d with rollback := rb } txFunc s s1 dbh e
      ((GetDB_rollback_irrelevant d rb _).trans hdb) hbegin hwork⟩

/-- C2: when beginning succeeds, the unit of work returns nil and the commit
succeeds, `TransactionHandler` returns nil; the transaction calls it issued are, in
order, `Begin`, one invocation of the unit of work on the handle `Begin` returned,
and one `Commit` on that handle: one commit, no rollback. -/
theorem transactionHandler_success_commits {W : Type} (d : Driver W)
    (txFunc : TxFunc W) (s s1 : State W) (dbh : GormDB)
    (hdb : GetDB d (s.emit (.spanStart "HandleTransaction")) = .ret (some dbh) s1)
    (hbegin : (d.begin dbh s1.world).1.Error = none)
    (hwork : (txFunc (d.begin dbh s1.world).1 (d.begin dbh s1.world).2).1 = none)
    (hcommit : (d.commit (d.begin dbh s1.world).1
      (txFunc (d.begin dbh s1.world).1 (d.begin dbh s1.world).2).2).1.Error = none) :
    ∃ s2, TransactionHandler d txFunc s = .ret none s2 ∧
      txOps s2.trace = txOps s.trace ++
        [.begin dbh (d.begin dbh s1.world).1,
         .txFunc (d.begin dbh s1.world).1 none,
         .commit (d.begin dbh s1.world).1
          (d.commit (d.begin dbh s1.world).1
            (txFunc (d.begin dbh s1.world).1 (d.begin dbh s1.world).2).2).1] ∧
      txFuncCalls s2.trace = txFuncCalls s.trace + 1 ∧
      commits s2.trace = commits s.trace + 1 ∧
      rollbacks s2.trace = rollbacks s.trace := by
  obtain ⟨ht, _, hf, hr, hc⟩ := after_getDB d s s1 _ hdb
  refine ⟨_, TransactionHandler_commit_ok d txFunc s s1 dbh hdb hbegin hwork hcommit,
    ?_, ?_, ?_, ?_⟩
  · rw [emit_trace, txCommitted_trace, ← ht, hwork]
    simp [txOps, Event.isTx, Event.isBegin, Event.isTxFunc, Event.isRollback, Event.isCommit]
  · rw [emit_trace, txCommitted_trace, ← hf]
    simp [txFuncCalls, Event.isTxFunc]
  · rw [emit_trace, txCommitted_trace, ← hc]
    simp [commits, Event.isCommit]
  · rw [emit_trace, txCommitted_trace, ← hr]
    simp [rollbacks, Event.isRollback]

/-- C3 (amended): when `Begin` fails with error `e`, `TransactionHandler` returns `e`
wrapped with the context "Failed to start the transaction"; the only transaction
call it issued is that `Begin`: the unit of work is not invoked, and there is no
rollback and no commit. -/
theorem transactionHandler_begin_error_returns {W : Type} (d : Driver W)
    (txFunc : TxFunc W) (s s1 : State W) (dbh : GormDB) (e : GoError)
    (hdb : GetDB d (s.emit (.spanStart "HandleTransaction")) = .ret (some dbh) s1)
    (hbegin : (d.begin dbh s1.world).1.Error = some e) :
    ∃ s2, TransactionHandler d txFunc s =
        .ret (some (.wrap e "Failed to start the transaction")) s2 ∧
      txOps s2.trace = txOps s.trace ++ [.begin dbh (d.begin dbh s1.world).1] ∧
      txFuncCalls s2.trace = txFuncCalls s.trace ∧
      rollbacks s2.trace = rollbacks s.trace ∧
      commits s2.trace = commits s.trace := by
  obtain ⟨ht, _, hf, hr, hc⟩ := after_getDB d s s1 _ hdb
  refine ⟨_, TransactionHandler_begin_error d txFunc s s1 dbh e hdb hbegin, ?_, ?_, ?_, ?_⟩
  · rw [emit_trace, txBegun_trace, ← ht]
    simp [txOps, Event.isTx, Event.isBegin, Event.isTxFunc, Event.isRollback, Event.isCommit]
  · rw [emit_trace, txBegun_trace, ← hf]
    simp [txFuncCalls, Event.isTxFunc]
  · rw [emit_trace, txBegun_trace, ← hr]
    simp [rollbacks, Event.isRollback]
  · rw [emit_trace, txBegun_trace, ← hc]
    simp [commits, Event.isCommit]

/-- C5 (amended): when beginning succeeds, the unit of work returns nil and the
commit fails with error `e`, `TransactionHandler` returns (it does not end in the
fatal signal) the error `e` wrapped with the context
"Failed to commit the transaction". -/
theorem transactionHandler_commit_error_returns {W : Type} (d : Driver W)
    (txFunc : TxFunc W) (s s1 : State W) (dbh : GormDB) (e : GoError)
    (hdb : GetDB d (s.emit (.spanStart "HandleTransaction")) = .ret (some dbh) s1)
    (hbegin : (d.begin dbh s1.world).1.Error = none)
    (hwork : (txFunc (d.begin dbh s1.world).1 (d.begin dbh s1.world).2).1 = none)
    (hcommit : (d.commit (d.begin dbh s1.world).1
      (txFunc (d.begin dbh s1.world).1 (d.begin dbh s1.world).2).2).1.Error = some e) :
    ∃ s2, TransactionHandler d txFunc s =
      .ret (some (.wrap e "Failed to commit the transaction")) s2 :=
  ⟨_, TransactionHandler_commit_error d txFunc s s1 dbh e hdb hbegin hwork hcommit⟩

theorem TransactionHandler_not_begun {W : Type} (d : Driver W) (txFunc : TxFunc W)
    (s : State W)
    (h : ∀ dbh s1, GetDB d (s.emit (.spanStart "HandleTransaction")) ≠ .ret (some dbh) s1) :
    (∀ r s2, TransactionHandler d txFunc s ≠ .ret r s2) ∧
    (TransactionHandler d txFunc s).state =
      (GetDB d (s.emit (.spanStart "HandleTransaction"))).state := by
  cases hg : GetDB d (s.emit (.spanStart "HandleTransaction")) with
  | fatal t => simp [TransactionHandler, hg, Outcome.state]
  | panic t => simp [TransactionHandler, hg, Outcome.state]
  | ret r t =>
    cases r with
    | none => simp [TransactionHandler, hg, Outcome.state]
    | some dbh => exact absurd hg (h dbh t)

/-- C4: a `TransactionHandler` call that reaches `Begin` returns; when `Begin`
succeeded it issued exactly one of rollback and commit (a rollback when the unit of
work failed, a commit, whatever its result, when it did not); when `Begin` failed it
issued neither.  A call that does not reach `Begin` does not return and issues no
transaction call at all. -/
theorem transactionHandler_one_of_rollback_commit {W : Type} (d : Driver W)
    (txFunc : TxFunc W) (s : State W) :
    (∀ dbh s1, GetDB d (s.emit (.spanStart "HandleTransaction")) = .ret (some dbh) s1 →
      ∃ r s2, TransactionHandler d txFunc s = .ret r s2 ∧
        ((d.begin dbh s1.world).1.Error = none →
          ((rollbacks s2.trace = rollbacks s.trace + 1 ∧ commits s2.trace = commits s.trace) ∨
           (rollbacks s2.trace = rollbacks s.trace ∧ commits s2.trace = commits s.trace + 1)) ∧
          ((txFunc (d.begin dbh s1.world).1 (d.begin dbh s1.world).2).1 = none →
            rollbacks s2.trace = rollbacks s.trace ∧
            commits s2.trace = commits s.trace + 1) ∧
          ((txFunc (d.begin dbh s1.world).1 (d.begin dbh s1.world).2).1 ≠ none →
            rollbacks s2.trace = rollbacks s.trace + 1 ∧
            commits s2.trace = commits s.trace)) ∧
        ((d.begin dbh s1.world).1.Error ≠ none →
          rollbacks s2.trace = rollbacks s.trace ∧ commits s2.trace = commits s.trace)) ∧
    ((∀ dbh s1, GetDB d (s.emit (.spanStart "HandleTransaction")) ≠ .ret (some dbh) s1) →
      (∀ r s2, TransactionHandler d txFunc s ≠ .ret r s2) ∧
      begins (TransactionHandler d txFunc s).state.trace = begins s.trace ∧
      rollbacks (TransactionHandler d txFunc s).state.trace = rollbacks s.trace ∧
      commits (TransactionHandler d txFunc s).state.trace = commits s.trace) := by
  constructor
  · intro dbh s1 hdb
    obtain ⟨_, _, _, hr, hc⟩ := after_getDB d s s1 _ hdb
    cases hb : (d.begin dbh s1.world).1.Error with
    | some e =>
      refine ⟨_, _, TransactionHandler_begin_error d txFunc s s1 dbh e hdb hb, ?_, ?_⟩
      · intro h; exact Option.noConfusion h
      · intro _
        rw [emit_trace, txBegun_trace, ← hr, ← hc]
        simp [rollbacks, commits, Event.isRollback, Event.isCommit]
    | none =>
      cases hw : (txFunc (d.begin dbh s1.world).1 (d.begin dbh s1.world).2).1 with
      | some e =>
        have key : rollbacks ((txRolledBack d txFunc dbh s1).emit
              (.spanEnd "HandleTransaction")).trace = rollbacks s.trace + 1 ∧
            commits ((txRolledBack d txFunc dbh s1).emit
              (.spanEnd "HandleTransaction")).trace = commits s.trace := by
          rw [emit_trace, txRolledBack_trace, ← hr, ← hc]
          simp [rollbacks, commits, Event.isRollback, Event.isCommit]
        refine ⟨_, _, TransactionHandler_work_error d txFunc s s1 dbh e hdb hb hw, ?_, ?_⟩
        · intro _
          exact ⟨Or.inl key, fun h => Option.noConfusion h, fun _ => key⟩
        · intro h; exact absurd rfl h
      | none =>
        have key : ∀ t : State W, t.trace = (txCommitted d txFunc dbh s1).trace ++
              [.spanEnd "HandleTransaction"] →
            rollbacks t.trace = rollbacks s.trace ∧ commits t.trace = commits s.trace + 1 := by
          intro t ht
          rw [ht, txCommitted_trace, ← hr, ← hc]
          simp [rollbacks, commits, Event.isRollback, Event.isCommit]
        cases hcm : (d.commit (d.begin dbh s1.world).1
            (txFunc (d.begin dbh s1.world).1 (d.begin dbh s1.world).2).2).1.Error with
        | some e =>
          refine ⟨_, _, TransactionHandler_commit_error d txFunc s s1 dbh e hdb hb hw hcm,
            ?_, ?_⟩
          · intro _
            exact ⟨Or.inr (key _ rfl), fun _ => key _ rfl, fun h => absurd rfl h⟩
          · intro h; exact absurd rfl h
        | none =>
          refine ⟨_, _, TransactionHandler_commit_ok d txFunc s s1 dbh hdb hb hw hcm, ?_, ?_⟩
          · intro _
            exact ⟨Or.inr (key _ rfl), fun _ => key _ rfl, fun h => absurd rfl h⟩
          · intro h; exact absurd rfl h
  · intro h
    obtain ⟨hnr, hst⟩ := TransactionHandler_not_begun d txFunc s h
    obtain ⟨_, hb, _, hr, hc⟩ := GetDB_tx_counts d (s.emit (.spanStart "HandleTransaction"))
    refine ⟨hnr, ?_, ?_, ?_⟩
    · rw [hst, hb]; simp [begins, Event.isBegin]
    · rw [hst, hr]; simp [rollbacks, Event.isRollback]
    · rw [hst, hc]; simp [commits, Event.isCommit]

/-! ### Preservation of the handle invariant -/

theorem createOps_append (t u : List Event) : createOps (t ++ u) = createOps t ++ createOps u :=
  List.filter_append _ _

theorem createOps_logs (logs : List Event) (h : ∀ e ∈ logs, e.isLog = true) :
    createOps logs = [] := by
  unfold createOps
  rw [List.filter_eq_nil_iff]
  intro e he
  have := h e he
  cases e <;> simp_all [Event.isLog, Event.isCreate, Event.isInitDB, Event.isOpen,
    Event.isMigrate]

theorem handleInv_transfer {W : Type} {s t : State W} (h : HandleInv s) (hv : SameVars s t)
    (hc : createOps t.trace = createOps s.trace) : HandleInv t := by
  rcases h with ⟨h1, h2, h3⟩ | ⟨h1, h2, h, dsn, h3, h4⟩
  · exact Or.inl ⟨hv.once.trans h1, hv.db.trans h2, hc.trans h3⟩
  · exact Or.inr ⟨hv.once.trans h1, hv.modelsSet.trans h2, h, dsn, hv.db.trans h3,
      by rw [hc, h4, hv.models]⟩

theorem handleInv_init {W : Type} (w : W) : HandleInv (State.init w) :=
  Or.inl ⟨rfl, rfl, rfl⟩

theorem RegisterModels_createOps {W : Type} (ms : List Model) (s : State W) :
    createOps (RegisterModels ms s).trace = createOps s.trace := by
  unfold RegisterModels
  simp only []
  split
  · simp only [emit_trace, createOps_append]
    simp [createOps, Event.isCreate, Event.isInitDB, Event.isOpen, Event.isMigrate]
  · split <;>
    · simp only [emit_trace, createOps_append]
      simp [State.emit, createOps, Event.isCreate, Event.isInitDB, Event.isOpen, Event.isMigrate]

theorem RegisterModels_registered {W : Type} (ms : List Model) (s : State W)
    (h : s.modelsSet = true) :
    SameVars s (RegisterModels ms s) ∧ (RegisterModels ms s).world = s.world := by
  unfold RegisterModels
  have h1 : (s.emit (.spanStart "RegisterModels")).modelsSet = true := h
  simp only [h1, if_true]
  exact ⟨⟨rfl, rfl, rfl, rfl, rfl⟩, rfl⟩

theorem RegisterModels_handle {W : Type} (ms : List Model) (s : State W) :
    (RegisterModels ms s).db = s.db ∧ (RegisterModels ms s).once = s.once ∧
    (RegisterModels ms s).world = s.world := by
  unfold RegisterModels
  simp only []
  split
  · exact ⟨rfl, rfl, rfl⟩
  · split <;> exact ⟨rfl, rfl, rfl⟩

theorem RegisterModels_fresh {W : Type} (ms : List Model) (s : State W)
    (h : s.modelsSet = false) (ho : s.modelsOnce = false) :
    (RegisterModels ms s).models = ms ∧ (RegisterModels ms s).modelsSet = true ∧
    (RegisterModels ms s).modelsOnce = true := by
  simp [RegisterModels, State.emit, h, ho]

theorem RegisterModels_inv {W : Type} (ms : List Model) (s : State W) (h : HandleInv s) :
    HandleInv (RegisterModels ms s) := by
  obtain ⟨hdb, honce, _⟩ := RegisterModels_handle ms s
  rcases h with ⟨h1, h2, h3⟩ | ⟨h1, h2, hh⟩
  · exact Or.inl ⟨honce.trans h1, hdb.trans h2, (RegisterModels_createOps ms s).trans h3⟩
  · exact handleInv_transfer (Or.inr ⟨h1, h2, hh⟩) (RegisterModels_registered ms s h2).1
      (RegisterModels_createOps ms s)

theorem GetDB_inv {W : Type} (d : Driver W) (s : State W) (hinv : HandleInv s) :
    match GetDB d s with
    | .ret r s1 => HandleInv s1 ∧ s1.once = true ∧ r = s1.db
    | .fatal s1 => s1.db = none
    | .panic s1 => s1.db = none := by
  have unset : s.once = false → s.db = none := by
    intro h
    rcases hinv with ⟨_, h2, _⟩ | ⟨h1, _⟩
    · exact h2
    · rw [h] at h1; cases h1
  have hspec := GetDB_spec d s
  generalize GetDB d s = out at hspec
  cases hspec with
  | unregistered s1 hset h1 =>
    have : s.once = false := by
      rcases hinv with ⟨h, _⟩ | ⟨_, h2, _⟩
      · exact h
      · rw [hset] at h2; cases h2
    subst h1
    exact unset this
  | hot r s1 hset honce hr h1 =>
    subst h1
    refine ⟨handleInv_transfer hinv ⟨rfl, rfl, rfl, rfl, rfl⟩ ?_, honce, hr⟩
    simp only [emit_trace, createOps_append]
    simp [createOps, Event.isCreate, Event.isInitDB, Event.isOpen, Event.isMigrate]
  | openFailed logs dsn odb err1 s1 _ honce _ _ _ _ hdb _ _ => exact hdb.trans (unset honce)
  | openNil logs dsn s1 _ honce _ _ _ _ hdb _ _ => exact hdb.trans (unset honce)
  | migrateFailed logs dsn db err2 s1 _ honce _ _ _ _ hdb _ _ => exact hdb.trans (unset honce)
  | created logs dsn db r s1 hset honce hall hm hms _ hr hdb ho htr =>
    refine ⟨Or.inr ⟨ho, hms.trans hset, db, dsn, hdb, ?_⟩, ho, hr.trans hdb.symm⟩
    have h0 : createOps s.trace = [] := by
      rcases hinv with ⟨_, _, h3⟩ | ⟨h1, _⟩
      · exact h3
      · rw [honce] at h1; cases h1
    rw [htr, hm]
    simp only [createOps_append, h0, createOps_logs logs hall]
    simp [createOps, Event.isCreate, Event.isInitDB, Event.isOpen, Event.isMigrate]

theorem TransactionHandler_ret_frame {W : Type} (d : Driver W) (txFunc : TxFunc W)
    (s s1 : State W) (dbh : GormDB)
    (hdb : GetDB d (s.emit (.spanStart "HandleTransaction")) = .ret (some dbh) s1) :
    ∃ r s2, TransactionHandler d txFunc s = .ret r s2 ∧ SameVars s1 s2 ∧
      createOps s2.trace = createOps s1.trace := by
  have hcreate : ∀ evs : List Event, (∀ e ∈ evs, e.isCreate = false) →
      createOps (s1.trace ++ evs) = createOps s1.trace := by
    intro evs h
    rw [createOps_append]
    have : createOps evs = [] := by
      unfold createOps
      rw [List.filter_eq_nil_iff]
      intro e he
      simp [h e he]
    rw [this, List.append_nil]
  cases hb : (d.begin dbh s1.world).1.Error with
  | some e =>
    refine ⟨_, _, TransactionHandler_begin_error d txFunc s s1 dbh e hdb hb,
      ⟨rfl, rfl, rfl, rfl, rfl⟩, ?_⟩
    rw [emit_trace, txBegun_trace, List.append_assoc]
    apply hcreate
    simp [Event.isCreate, Event.isInitDB, Event.isOpen, Event.isMigrate]
  | none =>
    cases hw : (txFunc (d.begin dbh s1.world).1 (d.begin dbh s1.world).2).1 with
    | some e =>
      refine ⟨_, _, TransactionHandler_work_error d txFunc s s1 dbh e hdb hb hw,
        ⟨rfl, rfl, rfl, rfl, rfl⟩, ?_⟩
      rw [emit_trace, txRolledBack_trace, List.append_assoc]
      apply hcreate
      simp [Event.isCreate, Event.isInitDB, Event.isOpen, Event.isMigrate]
    | none =>
      have key : createOps ((txCommitted d txFunc dbh s1).emit
          (.spanEnd "HandleTransaction")).trace = createOps s1.trace := by
        rw [emit_trace, txCommitted_trace, List.append_assoc]
        apply hcreate
        simp [Event.isCreate, Event.isInitDB, Event.isOpen, Event.isMigrate]
      cases hcm : (d.commit (d.begin dbh s1.world).1
          (txFunc (d.begin dbh s1.world).1 (d.begin dbh s1.world).2).2).1.Error with
      | some e =>
        exact ⟨_, _, TransactionHandler_commit_error d txFunc s s1 dbh e hdb hb hw hcm,
          ⟨rfl, rfl, rfl, rfl, rfl⟩, key⟩
      | none =>
        exact ⟨_, _, TransactionHandler_commit_ok d txFunc s s1 dbh hdb hb hw hcm,
          ⟨rfl, rfl, rfl, rfl, rfl⟩, key⟩

theorem handleInv_emit_span {W : Type} {s : State W} (h : HandleInv s) (name : String)
    (hn : name ≠ "initDB") : HandleInv (s.emit (.spanStart name)) := by
  refine handleInv_transfer h ⟨rfl, rfl, rfl, rfl, rfl⟩ ?_
  simp only [emit_trace, createOps_append]
  simp [createOps, Event.isCreate, Event.isInitDB, Event.isOpen, Event.isMigrate, hn]

theorem TransactionHandler_inv {W : Type} (d : Driver W) (txFunc : TxFunc W) (s : State W)
    (hinv : HandleInv s) :
    match TransactionHandler d txFunc s with
    | .ret _ s2 => HandleInv s2 ∧ s2.once = true
    | .fatal s2 => s2.db = none
    | .panic s2 => s2.db = none := by
  have h0 := GetDB_inv d _ (handleInv_emit_span hinv "HandleTransaction" (by decide))
  cases hg : GetDB d (s.emit (.spanStart "HandleTransaction")) with
  | fatal t =>
    rw [hg] at h0
    simpa [TransactionHandler, hg] using h0
  | panic t =>
    rw [hg] at h0
    simpa [TransactionHandler, hg] using h0
  | ret r t =>
    rw [hg] at h0
    cases r with
    | none =>
      simp only [TransactionHandler, hg]
      exact h0.2.2.symm
    | some dbh =>
      obtain ⟨r, s2, heq, hv, hc⟩ := TransactionHandler_ret_frame d txFunc s t dbh hg
      rw [heq]
      exact ⟨handleInv_transfer h0.1 hv hc, hv.once.trans h0.2.1⟩

theorem exec_inv {W : Type} (d : Driver W) (c : Call W) (s : State W) (hinv : HandleInv s) :
    match c.exec d s with
    | .ret _ t => HandleInv t
    | .fatal t => t.db = none
    | .panic t => t.db = none := by
  cases c with
  | registerModels ms => exact RegisterModels_inv ms s hinv
  | getDB =>
    have h := GetDB_inv d s hinv
    simp only [Call.exec]
    cases hg : GetDB d s <;> rw [hg] at h <;> simp only [Outcome.void]
    · exact h.1
    · exact h
    · exact h
  | transactionHandler f =>
    have h := TransactionHandler_inv d f s hinv
    simp only [Call.exec]
    cases hg : TransactionHandler d f s <;> rw [hg] at h <;> simp only [Outcome.void]
    · exact h.1
    · exact h
    · exact h

theorem run_inv {W : Type} (d : Driver W) (cs : List (Call W)) (s : State W)
    (hinv : HandleInv s) :
    match run d cs s with
    | .ret _ t => HandleInv t
    | .fatal t => t.db = none
    | .panic t => t.db = none := by
  induction cs generalizing s with
  | nil => exact hinv
  | cons c cs ih =>
    have h := exec_inv d c s hinv
    simp only [run]
    cases hc : c.exec d s <;> rw [hc] at h
    · exact ih _ h
    · exact h
    · exact h

/-! ### Claims on RegisterModels and GetDB -/

theorem run_register_registered {W : Type} (d : Driver W) (later : List (List Model))
    (s : State W) (h : s.modelsSet = true) :
    ∃ t, run d (later.map Call.registerModels) s = .ret () t ∧ t.models = s.models ∧
      t.modelsSet = true := by
  induction later generalizing s with
  | nil => exact ⟨s, rfl, rfl, h⟩
  | cons a rest ih =>
    have hv := (RegisterModels_registered a s h).1
    obtain ⟨t, ht, hm, hs⟩ := ih (RegisterModels a s) (hv.modelsSet.trans h)
    exact ⟨t, by simpa [run, Call.exec] using ht, hm.trans hv.models, hs⟩

/-- C6: from the initial state, any sequence of `RegisterModels` calls returns
normally; after the first call, and after every later one, the stored models are the
first call's argument list (empty or not) and `modelsSet` is true; one more call
with any arguments changes neither. -/
theorem registerModels_first_call_wins {W : Type} (d : Driver W) (w : W)
    (first : List Model) (later : List (List Model)) :
    ∃ s, run d ((first :: later).map Call.registerModels) (State.init w) = .ret () s ∧
      s.models = first ∧ s.modelsSet = true ∧
      ∀ next, (RegisterModels next s).models = first ∧
        (RegisterModels next s).modelsSet = true := by
  obtain ⟨hm, hs, _⟩ := RegisterModels_fresh first (State.init w) rfl rfl
  obtain ⟨t, ht, htm, hts⟩ := run_register_registered d later _ hs
  refine ⟨t, by simpa [run, Call.exec] using ht, htm.trans hm, hts, ?_⟩
  intro next
  have hv := (RegisterModels_registered next t hts).1
  exact ⟨hv.models.trans (htm.trans hm), hv.modelsSet.trans hts⟩

theorem countP_createOps (p : Event → Bool) (hp : ∀ e, p e = true → e.isCreate = true)
    (t : List Event) : t.countP p = (createOps t).countP p := by
  unfold createOps
  rw [List.countP_filter]
  congr 1
  funext e
  cases h : p e
  · simp
  · simp [hp e h]

theorem create_counts (t : List Event) :
    initDBRuns t = initDBRuns (createOps t) ∧ opens t = opens (createOps t) ∧
    migrations t = migrations (createOps t) := by
  refine ⟨countP_createOps _ ?_ t, countP_createOps _ ?_ t, countP_createOps _ ?_ t⟩ <;>
  · intro e h
    simp [Event.isCreate, h]

/-- C7: when models are not registered, `GetDB` ends in the fatal signal; the guard,
the shared handle and the world are untouched, and the creation routine is not
entered: no `initDB`, no open, no migration. -/
theorem getDB_unregistered_is_fatal {W : Type} (d : Driver W) (s : State W)
    (h : s.modelsSet = false) :
    ∃ s1, GetDB d s = .fatal s1 ∧ s1.once = s.once ∧ s1.db = s.db ∧ s1.world = s.world ∧
      initDBRuns s1.trace = initDBRuns s.trace ∧ opens s1.trace = opens s.trace ∧
      migrations s1.trace = migrations s.trace := by
  refine ⟨_, GetDB_unregistered d s h, rfl, rfl, rfl, ?_, ?_, ?_⟩ <;>
  simp [initDBRuns, opens, migrations, Event.isInitDB, Event.isOpen, Event.isMigrate]

theorem ready_modelsSet {W : Type} {h : GormDB} {s : State W} (hr : Ready h s) :
    s.modelsSet = true := by
  rcases hr.1 with ⟨h1, _⟩ | ⟨_, h2, _⟩
  · rw [hr.2.1] at h1; cases h1
  · exact h2

theorem ready_counts {W : Type} {h : GormDB} {s : State W} (hr : Ready h s) :
    initDBRuns s.trace = 1 ∧ opens s.trace = 1 ∧ migrations s.trace = 1 := by
  obtain ⟨h1, h2, h3⟩ := create_counts s.trace
  rcases hr.1 with ⟨h4, _⟩ | ⟨_, _, k, dsn, _, hc⟩
  · rw [hr.2.1] at h4; cases h4
  · rw [h1, h2, h3, hc]
    simp [initDBRuns, opens, migrations, Event.isInitDB, Event.isOpen, Event.isMigrate]

theorem ready_emit_span {W : Type} {h : GormDB} {s : State W} (hr : Ready h s) (name : String)
    (hn : name ≠ "initDB") : Ready h (s.emit (.spanStart name)) :=
  ⟨handleInv_emit_span hr.1 name hn, hr.2.1, hr.2.2⟩

theorem ready_getDB {W : Type} {h : GormDB} {s : State W} (d : Driver W) (hr : Ready h s) :
    GetDB d s = .ret (some h) ((s.emit (.spanStart "GetDB")).emit (.spanEnd "GetDB")) ∧
    Ready h ((s.emit (.spanStart "GetDB")).emit (.spanEnd "GetDB")) := by
  have heq := GetDB_hot d s (ready_modelsSet hr) hr.2.1
  rw [hr.2.2] at heq
  have hinv := GetDB_inv d s hr.1
  rw [heq] at hinv
  exact ⟨heq, hinv.1, hr.2.1, hr.2.2⟩

theorem ready_exec {W : Type} {h : GormDB} {s : State W} (d : Driver W) (c : Call W)
    (hr : Ready h s) : ∃ t, c.exec d s = .ret () t ∧ Ready h t := by
  cases c with
  | registerModels ms =>
    obtain ⟨hdb, honce, _⟩ := RegisterModels_handle ms s
    exact ⟨_, rfl, RegisterModels_inv ms s hr.1, honce.trans hr.2.1, hdb.trans hr.2.2⟩
  | getDB =>
    obtain ⟨heq, hr1⟩ := ready_getDB d hr
    exact ⟨_, by simp [Call.exec, heq, Outcome.void], hr1⟩
  | transactionHandler f =>
    obtain ⟨heq, hr1⟩ := ready_getDB d (ready_emit_span hr "HandleTransaction" (by decide))
    obtain ⟨r, s2, hth, hv, hc⟩ := TransactionHandler_ret_frame d f s _ h heq
    exact ⟨s2, by simp [Call.exec, hth, Outcome.void], handleInv_transfer hr1.1 hv hc,
      hv.once.trans hr1.2.1, hv.db.trans hr1.2.2⟩

theorem ready_run {W : Type} {h : GormDB} (d : Driver W) (cs : List (Call W)) (s : State W)
    (hr : Ready h s) : ∃ t, run d cs s = .ret () t ∧ Ready h t := by
  induction cs generalizing s with
  | nil => exact ⟨s, rfl, hr⟩
  | cons c cs ih =>
    obtain ⟨t, ht, hrt⟩ := ready_exec d c hr
    obtain ⟨u, hu, hru⟩ := ih t hrt
    exact ⟨u, by simpa [DatabaseFlow.run, ht] using hu, hru⟩

/-- C8: once a `GetDB` call, made in a state reached from process start, has
returned the handle `h`, every later call sequence returns, and a `GetDB` call after
it returns `h` again, changing nothing but the trace, to which it adds its span
only; in the whole trace the creation routine was entered once, with one open and
one migration. -/
theorem getDB_idempotent {W : Type} (d : Driver W) (w : W) (cs1 cs2 : List (Call W))
    (s0 s1 : State W) (h : GormDB)
    (hreach : run d cs1 (State.init w) = .ret () s0)
    (hfirst : GetDB d s0 = .ret (some h) s1) :
    ∃ s2, run d cs2 s1 = .ret () s2 ∧
      GetDB d s2 = .ret (some h) ((s2.emit (.spanStart "GetDB")).emit (.spanEnd "GetDB")) ∧
      (initDBRuns s1.trace = 1 ∧ opens s1.trace = 1 ∧ migrations s1.trace = 1) ∧
      (initDBRuns ((s2.emit (.spanStart "GetDB")).emit (.spanEnd "GetDB")).trace = 1 ∧
        opens ((s2.emit (.spanStart "GetDB")).emit (.spanEnd "GetDB")).trace = 1 ∧
        migrations ((s2.emit (.spanStart "GetDB")).emit (.spanEnd "GetDB")).trace = 1) := by
  have hinv0 := run_inv d cs1 (State.init w) (handleInv_init w)
  rw [hreach] at hinv0
  have hinv1 := GetDB_inv d s0 hinv0
  rw [hfirst] at hinv1
  have hr1 : Ready h s1 := ⟨hinv1.1, hinv1.2.1, hinv1.2.2.symm⟩
  obtain ⟨s2, hrun, hr2⟩ := ready_run d cs2 s1 hr1
  obtain ⟨heq, hr3⟩ := ready_getDB d hr2
  exact ⟨s2, hrun, heq, ready_counts hr1, ready_counts hr3⟩

theorem isCreate_of_failed {e : Event} (h : e.isFailedCreate = true) : e.isCreate = true := by
  cases e <;> simp_all [Event.isFailedCreate, Event.isCreate, Event.isOpen, Event.isMigrate]

theorem handleInv_no_failed {W : Type} {s : State W} (hinv : HandleInv s) (e : Event)
    (he : e ∈ s.trace) : e.isFailedCreate = false := by
  cases hf : e.isFailedCreate with
  | false => rfl
  | true =>
    have hmem : e ∈ createOps s.trace := List.mem_filter.mpr ⟨he, isCreate_of_failed hf⟩
    rcases hinv with ⟨_, _, h3⟩ | ⟨_, _, h, dsn, _, h4⟩
    · rw [h3] at hmem; cases hmem
    · rw [h4] at hmem
      simp only [List.mem_cons, List.mem_singleton, List.not_mem_nil, or_false] at hmem
      rcases hmem with rfl | rfl | rfl <;> simp [Event.isFailedCreate] at hf

theorem isFailedCreate_log {e : Event} (h : e.isLog = true) : e.isFailedCreate = false := by
  cases e <;> simp_all [Event.isLog, Event.isFailedCreate]

theorem GetDB_failed_create {W : Type} (d : Driver W) (s : State W) (hinv : HandleInv s)
    (hfail : ∃ e ∈ (GetDB d s).state.trace, e.isFailedCreate = true) :
    ∃ s1, GetDB d s = .fatal s1 ∧ s1.db = none := by
  have hi := GetDB_inv d s hinv
  have hspec := GetDB_spec d s
  obtain ⟨e, he, hf⟩ := hfail
  generalize hout : GetDB d s = out at hspec hi he
  cases hspec with
  | unregistered s1 _ _ => exact ⟨_, rfl, hi⟩
  | openFailed logs dsn odb err1 s1 _ _ _ _ _ _ _ _ _ => exact ⟨_, rfl, hi⟩
  | migrateFailed logs dsn db err2 s1 _ _ _ _ _ _ _ _ _ => exact ⟨_, rfl, hi⟩
  | hot r s1 _ _ _ h1 =>
    exfalso
    subst h1
    simp only [Outcome.state, emit_trace, List.mem_append, List.mem_singleton] at he
    rcases he with (he | rfl) | rfl
    · rw [handleInv_no_failed hinv e he] at hf; cases hf
    · cases hf
    · cases hf
  | openNil logs dsn s1 _ _ hall _ _ _ _ _ htr =>
    exfalso
    simp only [Outcome.state, htr, List.mem_append, List.mem_cons, List.mem_singleton,
      List.not_mem_nil, or_false] at he
    rcases he with ((he | rfl | rfl) | he) | rfl
    · rw [handleInv_no_failed hinv e he] at hf; cases hf
    · cases hf
    · cases hf
    · rw [isFailedCreate_log (hall e he)] at hf; cases hf
    · cases hf
  | created logs dsn db r s1 _ _ hall _ _ _ _ _ _ htr =>
    exfalso
    simp only [Outcome.state, htr, List.mem_append, List.mem_cons, List.mem_singleton,
      List.not_mem_nil, or_false] at he
    rcases he with ((he | rfl | rfl) | he) | rfl | rfl | rfl | rfl
    · rw [handleInv_no_failed hinv e he] at hf; cases hf
    · cases hf
    · cases hf
    · rw [isFailedCreate_log (hall e he)] at hf; cases hf
    · cases hf
    · cases hf
    · cases hf
    · cases hf

/-- C9: in every state reached from process start through `RegisterModels`, `GetDB`
and `TransactionHandler` calls the handle invariant holds: the shared handle is nil
and nothing was created, or it is the handle that one run of the creation routine
opened without error and then migrated without error on the registered models.
Every handle `GetDB` returns is that stored, migrated handle.  A `GetDB` call whose
trace holds a failed open or a failed migration ends in the fatal signal with the
shared handle nil, and so does every call sequence that does not return. -/
theorem handle_unset_or_migrated {W : Type} (d : Driver W) (w : W) (cs : List (Call W)) :
    (∀ s, run d cs (State.init w) = .ret () s →
      HandleInv s ∧
      (∀ r s1, GetDB d s = .ret r s1 → ∃ h dsn, r = some h ∧ s1.db = some h ∧
        s1.modelsSet = true ∧ createOps s1.trace =
          [.spanStart "initDB", .gormOpen dsn (some h) none,
           .autoMigrate h s1.models none]) ∧
      ((∃ e ∈ (GetDB d s).state.trace, e.isFailedCreate = true) →
        ∃ s1, GetDB d s = .fatal s1 ∧ s1.db = none)) ∧
    (∀ s, run d cs (State.init w) = .fatal s → s.db = none) ∧
    (∀ s, run d cs (State.init w) = .panic s → s.db = none) := by
  have hinv := run_inv d cs (State.init w) (handleInv_init w)
  refine ⟨?_, ?_, ?_⟩
  · intro s hs
    rw [hs] at hinv
    refine ⟨hinv, ?_, GetDB_failed_create d s hinv⟩
    intro r s1 hg
    have h1 := GetDB_inv d s hinv
    rw [hg] at h1
    obtain ⟨hi, ho, hr⟩ := h1
    rcases hi with ⟨h2, _⟩ | ⟨_, hset, h, dsn, hdb, hc⟩
    · rw [ho] at h2; cases h2
    · exact ⟨h, dsn, hr.trans hdb, hdb, hset, hc⟩
  · intro s hs
    rw [hs] at hinv
    exact hinv
  · intro s hs
    rw [hs] at hinv
    exact hinv

/-! ### Concrete runs -/

/-- Witness for C1: a registered process, a first transaction whose unit of work fails
with "boom", and a `Rollback` that itself fails. -/
theorem transactionHandler_work_error_rolls_back_witness :
    ∃ s2, TransactionHandler (demoDriver none none) failingWork demoRegistered =
        .ret (some (.wrap (.new "boom") "Transaction failed, rolled back")) s2 ∧
      rollbacks s2.trace = rollbacks demoRegistered.trace + 1 ∧
      commits s2.trace = commits demoRegistered.trace :=
  (transactionHandler_work_error_rolls_back (demoDriver none none) failingWork demoRegistered
    (demoAfterGetDB none none) ⟨1, none⟩ (.new "boom") (by decide) (by decide) (by decide)).1

/-- Counterexample to C1 as stated: in that run `Begin` succeeds and the unit of work
returns "boom"; the returned error carries the context "Transaction failed, rolled
back", so it is not the error with the context "transaction failed, rolled back". -/
theorem transactionHandler_work_error_context_counterexample :
    (∃ s2, TransactionHandler (demoDriver none none) failingWork demoRegistered =
        .ret (some (.wrap (.new "boom") "Transaction failed, rolled back")) s2 ∧
      Event.begin ⟨1, none⟩ ⟨2, none⟩ ∈ s2.trace ∧
      Event.txFunc ⟨2, none⟩ (some (.new "boom")) ∈ s2.trace) ∧
    ¬ ∃ s2, TransactionHandler (demoDriver none none) failingWork demoRegistered =
        .ret (some (.wrap (.new "boom") "transaction failed, rolled back")) s2 := by
  have h : TransactionHandler (demoDriver none none) failingWork demoRegistered =
      .ret (some (.wrap (.new "boom") "Transaction failed, rolled back"))
        (TransactionHandler (demoDriver none none) failingWork demoRegistered).state := by
    decide
  refine ⟨⟨_, h, by decide, by decide⟩, ?_⟩
  rintro ⟨s2, h2⟩
  rw [h] at h2
  simp at h2

/-- Witness for C2: a registered process and a first transaction that succeeds. -/
theorem transactionHandler_success_commits_witness :
    ∃ s2, TransactionHandler (demoDriver none none) okWork demoRegistered = .ret none s2 ∧
      txOps s2.trace = txOps demoRegistered.trace ++
        [.begin ⟨1, none⟩ ⟨2, none⟩, .txFunc ⟨2, none⟩ none, .commit ⟨2, none⟩ ⟨2, none⟩] ∧
      txFuncCalls s2.trace = txFuncCalls demoRegistered.trace + 1 ∧
      commits s2.trace = commits demoRegistered.trace + 1 ∧
      rollbacks s2.trace = rollbacks demoRegistered.trace :=
  transactionHandler_success_commits (demoDriver none none) okWork demoRegistered
    (demoAfterGetDB none none) ⟨1, none⟩ (by decide) (by decide) (by decide) (by decide)

/-- Witness for C3: a registered process whose `Begin` fails with "no connection". -/
theorem transactionHandler_begin_error_returns_witness :
    ∃ s2, TransactionHandler (demoDriver (some (.new "no connection")) none) okWork
          demoRegistered =
        .ret (some (.wrap (.new "no connection") "Failed to start the transaction")) s2 ∧
      txOps s2.trace = txOps demoRegistered.trace ++
        [.begin ⟨1, none⟩ ⟨2, some (.new "no connection")⟩] ∧
      txFuncCalls s2.trace = txFuncCalls demoRegistered.trace ∧
      rollbacks s2.trace = rollbacks demoRegistered.trace ∧
      commits s2.trace = commits demoRegistered.trace :=
  transactionHandler_begin_error_returns (demoDriver (some (.new "no connection")) none) okWork
    demoRegistered (demoAfterGetDB (some (.new "no connection")) none) ⟨1, none⟩
    (.new "no connection") (by decide) (by decide)

/-- Counterexample to C3 as stated: in that run `Begin` fails with "no connection";
the returned error carries the context "Failed to start the transaction", so it is
not the error with the context "failed to start transaction". -/
theorem transactionHandler_begin_error_context_counterexample :
    (∃ s2, TransactionHandler (demoDriver (some (.new "no connection")) none) okWork
          demoRegistered =
        .ret (some (.wrap (.new "no connection") "Failed to start the transaction")) s2 ∧
      Event.begin ⟨1, none⟩ ⟨2, some (.new "no connection")⟩ ∈ s2.trace) ∧
    ¬ ∃ s2, TransactionHandler (demoDriver (some (.new "no connection")) none) okWork
          demoRegistered =
        .ret (some (.wrap (.new "no connection") "failed to start transaction")) s2 := by
  have h : TransactionHandler (demoDriver (some (.new "no connection")) none) okWork
        demoRegistered =
      .ret (some (.wrap (.new "no connection") "Failed to start the transaction"))
        (TransactionHandler (demoDriver (some (.new "no connection")) none) okWork
          demoRegistered).state := by
    decide
  refine ⟨⟨_, h, by decide⟩, ?_⟩
  rintro ⟨s2, h2⟩
  rw [h] at h2
  simp at h2

/-- Witness for C4: a transaction whose commit fails issued one commit and no
rollback. -/
theorem transactionHandler_one_of_rollback_commit_witness :
    ∃ r s2, TransactionHandler (demoDriver none (some (.new "commit failed"))) okWork
          demoRegistered = .ret r s2 ∧
      rollbacks s2.trace = rollbacks demoRegistered.trace ∧
      commits s2.trace = commits demoRegistered.trace + 1 := by
  obtain ⟨r, s2, h, hok, _⟩ :=
    (transactionHandler_one_of_rollback_commit (demoDriver none (some (.new "commit failed")))
      okWork demoRegistered).1 ⟨1, none⟩ (demoAfterGetDB none (some (.new "commit failed")))
      (by decide)
  exact ⟨r, s2, h, (hok (by decide)).2.1 (by decide)⟩

/-- Witness for C5: a registered process whose `Commit` fails with "commit failed". -/
theorem transactionHandler_commit_error_returns_witness :
    ∃ s2, TransactionHandler (demoDriver none (some (.new "commit failed"))) okWork
          demoRegistered =
        .ret (some (.wrap (.new "commit failed") "Failed to commit the transaction")) s2 :=
  transactionHandler_commit_error_returns (demoDriver none (some (.new "commit failed"))) okWork
    demoRegistered (demoAfterGetDB none (some (.new "commit failed"))) ⟨1, none⟩
    (.new "commit failed") (by decide) (by decide) (by decide) (by decide)

/-- Counterexample to C5 as stated: in that run the unit of work returns nil and
`Commit` fails with "commit failed"; the returned error carries the context
"Failed to commit the transaction", so it is not the error with the context
"failed to commit". -/
theorem transactionHandler_commit_error_context_counterexample :
    (∃ s2, TransactionHandler (demoDriver none (some (.new "commit failed"))) okWork
          demoRegistered =
        .ret (some (.wrap (.new "commit failed") "Failed to commit the transaction")) s2 ∧
      Event.txFunc ⟨2, none⟩ none ∈ s2.trace ∧
      Event.commit ⟨2, none⟩ ⟨2, some (.new "commit failed")⟩ ∈ s2.trace) ∧
    ¬ ∃ s2, TransactionHandler (demoDriver none (some (.new "commit failed"))) okWork
          demoRegistered =
        .ret (some (.wrap (.new "commit failed") "failed to commit")) s2 := by
  have h : TransactionHandler (demoDriver none (some (.new "commit failed"))) okWork
        demoRegistered =
      .ret (some (.wrap (.new "commit failed") "Failed to commit the transaction"))
        (TransactionHandler (demoDriver none (some (.new "commit failed"))) okWork
          demoRegistered).state := by
    decide
  refine ⟨⟨_, h, by decide, by decide⟩, ?_⟩
  rintro ⟨s2, h2⟩
  rw [h] at h2
  simp at h2

/-- Witness for C7: `GetDB` at process start, before any registration. -/
theorem getDB_unregistered_is_fatal_witness :
    (State.init 0).modelsSet = false ∧
    ∃ s1, GetDB (demoDriver none none) (State.init 0) = .fatal s1 ∧
      s1.once = (State.init 0).once ∧ s1.db = (State.init 0).db ∧
      s1.world = (State.init 0).world ∧
      initDBRuns s1.trace = initDBRuns (State.init 0).trace ∧
      opens s1.trace = opens (State.init 0).trace ∧
      migrations s1.trace = migrations (State.init 0).trace :=
  ⟨rfl, getDB_unregistered_is_fatal (demoDriver none none) (State.init 0) rfl⟩

/-- Witness for C8: registration, a first `GetDB`, then a `GetDB`, a failing
transaction and a late registration, then `GetDB` again. -/
theorem getDB_idempotent_witness :
    ∃ s2, run (demoDriver none none)
          [.getDB, .transactionHandler failingWork, .registerModels [⟨"Late"⟩]]
          (GetDB (demoDriver none none) demoRegistered).state = .ret () s2 ∧
      GetDB (demoDriver none none) s2 =
        .ret (some ⟨1, none⟩) ((s2.emit (.spanStart "GetDB")).emit (.spanEnd "GetDB")) ∧
      (initDBRuns (GetDB (demoDriver none none) demoRegistered).state.trace = 1 ∧
        opens (GetDB (demoDriver none none) demoRegistered).state.trace = 1 ∧
        migrations (GetDB (demoDriver none none) demoRegistered).state.trace = 1) ∧
      (initDBRuns ((s2.emit (.spanStart "GetDB")).emit (.spanEnd "GetDB")).trace = 1 ∧
        opens ((s2.emit (.spanStart "GetDB")).emit (.spanEnd "GetDB")).trace = 1 ∧
        migrations ((s2.emit (.spanStart "GetDB")).emit (.spanEnd "GetDB")).trace = 1) :=
  getDB_idempotent (demoDriver none none) 0 [.registerModels [⟨"User"⟩, ⟨"Order"⟩]]
    [.getDB, .transactionHandler failingWork, .registerModels [⟨"Late"⟩]]
    demoRegistered (GetDB (demoDriver none none) demoRegistered).state ⟨1, none⟩
    (by decide) (by decide)

/-- Witness for C9: the state after registration and a first `GetDB`. -/
theorem handle_unset_or_migrated_witness :
    HandleInv (GetDB (demoDriver none none) demoRegistered).state :=
  ((handle_unset_or_migrated (demoDriver none none) 0
    [.registerModels [⟨"User"⟩, ⟨"Order"⟩], .getDB]).1 _ (by decide)).1

end DatabaseFlow
